import Mathlib

/-!
Shallow embedding of the scikit-image EuroSciPy 2017 tutorial notebooks.

The repository consists of three Jupyter notebooks:
  * an arrays notebook (manipulating images as digital arrays),
  * a visualization notebook (displaying images and overlays),
  * a filtering notebook (filtering, morphology, segmentation), which is the
    one that defines the local helper function imshow_all.

Two layers are embedded here, both transcribed statement by statement from
the notebook sources:

  1. A structural layer: every top-level Python statement of every code cell
     is recorded with its kind (import, assignment, in-place index
     assignment, expression/display, config write, local function
     definition), the variable names it binds, the pre-existing variable
     names it reads, the array it mutates in place (if any), and the
     external file accesses it performs.  Builtin names (print, type, len,
     min, max, dir, int) are not tracked as reads; module attribute access
     is attributed to the imported module name.

  2. A numeric layer: the parts of the code whose value-level behaviour the
     claims talk about — uint8 arithmetic wrapping, conversion of uint8
     images to floats in the unit interval, the derived float array
     data.binary_blobs() - 0.5, and the imshow_all helper (conversion of
     all inputs to float, title padding, shared vmin/vmax intensity limits,
     and the undefined dtype_limits name in the limits == dtype branch).
     Python floats are modelled as rationals.
-/

/-- An external access performed by a statement.  `fileRead bundled codec`
is a read of an image file (`bundled` = the file is a sample bundled with
the library, `codec` = it goes through a library image decode call);
`fileWrite toTempDir codec` is a write of an image/figure file
(`toTempDir` = the destination lies in the directory freshly created by
tempfile.mkdtemp(), `codec` = the bytes are produced by a library
image/figure encode call).  Directory management (tempfile.mkdtemp,
os.listdir on the temp directory) touches no file content and is not a
file interaction.  `network` never occurs in the notebooks; it is present
so that its absence is a statement about the program, not about the type. -/
inductive ExtAccess
  | fileRead (bundledSample viaCodec : Bool)
  | fileWrite (toTempDir viaCodec : Bool)
  | network
deriving DecidableEq, Repr

/-- The syntactic kind of a top-level notebook statement. -/
inductive StmtKind
  /-- an import or from-import statement -/
  | imports
  /-- an IPython magic such as the matplotlib backend selection -/
  | magic
  /-- a def statement: a locally implemented function -/
  | defineFun
  /-- an assignment binding one or more names to the value of an expression
  (library call, arithmetic on library objects, constant, comprehension) -/
  | assign
  /-- an in-place write into an existing array through slice, boolean-mask
  or fancy indexing, or an augmented assignment mutating the array -/
  | mutate
  /-- a write into library configuration state (plt.rcParams) -/
  | configSet
  /-- an expression statement: a display call (plt.*, print, a bare
  expression echoed by the notebook) or a library call run for its effect -/
  | expr
  /-- a try/except (or retry) construct; no notebook statement has this
  kind, which is exactly what the error-handling claim asserts -/
  | tryExcept
deriving DecidableEq, Repr

/-- One top-level Python statement of a notebook code cell. -/
structure Stmt where
  kind : StmtKind
  /-- names newly bound (or rebound) by the statement -/
  binds : List String
  /-- pre-existing variable names the statement reads -/
  reads : List String
  /-- the array variable the statement mutates in place, if any -/
  target : Option String
  /-- external accesses performed by the statement -/
  ext : List ExtAccess
deriving DecidableEq, Repr

/-- A code cell is the list of its top-level statements. -/
abbrev Cell := List Stmt

/-- an import statement binding the given module or function names -/
def impS (ns : List String) : Stmt := ⟨.imports, ns, [], none, []⟩

/-- an IPython magic line -/
def magicS : Stmt := ⟨.magic, [], [], none, []⟩

/-- an assignment of an expression over the given reads to the given names -/
def asg (bs rs : List String) : Stmt := ⟨.assign, bs, rs, none, []⟩

/-- an assignment whose right-hand side loads a bundled sample image
through a library decode call (data.coins(), data.camera(), ...) -/
def asgR (bs rs : List String) : Stmt := ⟨.assign, bs, rs, none, [.fileRead true true]⟩

/-- an expression statement (display or effect) over the given reads -/
def expS (rs : List String) : Stmt := ⟨.expr, [], rs, none, []⟩

/-- an expression statement writing an image/figure file into the freshly
created temporary directory through a library encode call -/
def expW (rs : List String) : Stmt := ⟨.expr, [], rs, none, [.fileWrite true true]⟩

/-- an in-place indexed write into the array named `t` -/
def mutS (t : String) (rs : List String) : Stmt := ⟨.mutate, [], rs, some t, []⟩

/-- a write into plt.rcParams -/
def cfgS : Stmt := ⟨.configSet, [], ["plt"], none, []⟩

/-- a def statement binding the function name `n` -/
def defFun (n : String) : Stmt := ⟨.defineFun, [n], [], none, []⟩

/-- The arrays notebook (arrays.ipynb), cell by cell, statement by
statement.  Markdown cells carry no statements and are omitted; the
exercise cell that contains only a comment is the empty cell. -/
def arraysNb : List Cell := [
  -- %matplotlib inline; import numpy as np; import matplotlib.pyplot as plt
  [magicS, impS ["np"], impS ["plt"]],
  -- from skimage import data; coins = data.coins()
  [impS ["data"], asgR ["coins"] ["data"]],
  -- type(coins)
  [expS ["coins"]],
  -- plt.imshow(coins, cmap=gray)
  [expS ["plt", "coins"]],
  -- four print statements over coins (pixel value, dtype, interval, shape)
  [expS ["coins"], expS ["coins"], expS ["coins"], expS ["coins"]],
  -- cat = data.chelsea(); plt.imshow(cat); print(cat.shape)
  [asgR ["cat"] ["data"], expS ["plt", "cat"], expS ["cat"]],
  -- cat[10:110, 10:110, :] = [255, 0, 0]; plt.imshow(cat)
  [mutS ("cat") ["cat"], expS ["plt", "cat"]],
  -- exercise cell: comment only
  [],
  -- mask_bg = coins < 90; coins_bg = np.copy(coins); coins_bg[mask_bg] = 0;
  -- fig, axes = plt.subplots(...); axes[0].imshow(mask_bg); axes[1].imshow(coins_bg)
  [asg ["mask_bg"] ["coins"], asg ["coins_bg"] ["np", "coins"],
   mutS ("coins_bg") ["coins_bg", "mask_bg"], asg ["fig", "axes"] ["plt"],
   expS ["axes", "mask_bg"], expS ["axes", "coins_bg"]],
  -- camera = data.camera(); print(dtype); camera_overflow = 2 * camera;
  -- fig, axes = plt.subplots(...); axes[0].imshow(camera); axes[1].imshow(camera_overflow)
  [asgR ["camera"] ["data"], expS ["camera"], asg ["camera_overflow"] ["camera"],
   asg ["fig", "axes"] ["plt"], expS ["axes", "camera"], expS ["axes", "camera_overflow"]],
  -- from skimage import img_as_float; camera_float = img_as_float(camera); two prints
  [impS ["img_as_float"], asg ["camera_float"] ["img_as_float", "camera"],
   expS ["camera"], expS ["camera_float"]],
  -- from skimage import filters; camera_gaussian = filters.gaussian(camera, sigma=5);
  -- two prints; plt.imshow(camera_gaussian)
  [impS ["filters"], asg ["camera_gaussian"] ["filters", "camera"],
   expS ["camera"], expS ["camera_gaussian"], expS ["plt", "camera_gaussian"]],
  -- import skimage; import os; data_dir = skimage.data_dir;
  -- camera_filename = os.path.join(data_dir, camera.png); print(camera_filename)
  [impS ["skimage"], impS ["os"], asg ["data_dir"] ["skimage"],
   asg ["camera_filename"] ["os", "data_dir"], expS ["camera_filename"]],
  -- from skimage import io; camera = io.imread(camera_filename): a decode
  -- read of the bundled sample camera.png inside skimage.data_dir; plt.imshow(camera)
  [impS ["io"], Stmt.mk .assign ["camera"] ["io", "camera_filename"] none [.fileRead true true],
   expS ["plt", "camera"]],
  -- import tempfile; tmp_dir = tempfile.mkdtemp(); file_name = os.path.join(tmp_dir,
  -- my_camera.png); io.imsave(file_name, camera); os.listdir(tmp_dir)
  [impS ["tempfile"], asg ["tmp_dir"] ["tempfile"], asg ["file_name"] ["os", "tmp_dir"],
   expW ["io", "file_name", "camera"], expS ["os", "tmp_dir"]],
  -- file_name = os.path.join(tmp_dir, gaussian_camera.png); io.imsave(file_name, camera_gaussian)
  [asg ["file_name"] ["os", "tmp_dir"], expW ["io", "file_name", "camera_gaussian"]]]

/-- The visualization notebook, cell by cell. -/
def visualizationNb : List Cell := [
  -- %matplotlib notebook
  [magicS],
  -- import numpy as np; import matplotlib.pyplot as plt
  [impS ["np"], impS ["plt"]],
  -- from skimage import data; cat = data.chelsea()
  [impS ["data"], asgR ["cat"] ["data"]],
  -- plt.imshow(cat); plt.axis(off)
  [expS ["plt", "cat"], expS ["plt"]],
  -- camera = data.camera()
  [asgR ["camera"] ["data"]],
  -- plt.figure(); plt.imshow(camera); plt.colorbar()
  [expS ["plt"], expS ["plt", "camera"], expS ["plt"]],
  -- plt.gray()
  [expS ["plt"]],
  -- a = 1./25 * np.arange(25).reshape((5, 5)); plt.figure(); plt.imshow(a)
  [asg ["a"] ["np"], expS ["plt"], expS ["plt", "a"]],
  -- plt.figure(); plt.imshow(a, interpolation=bicubic)
  [expS ["plt"], expS ["plt", "a"]],
  -- plt.figure(); plt.imshow(camera < 40)
  [expS ["plt"], expS ["plt", "camera"]],
  -- plt.figure(); plt.imshow(camera); plt.contour(camera, [40], colors=r)
  [expS ["plt"], expS ["plt", "camera"], expS ["plt", "camera"]],
  -- import tempfile, os; tmp_dir = tempfile.mkdtemp();
  -- file_name_png = os.path.join(tmp_dir, figure.png); plt.savefig(file_name_png);
  -- file_name_pdf = os.path.join(tmp_dir, figure.pdf); plt.savefig(file_name_pdf);
  -- os.listdir(tmp_dir)
  [impS ["tempfile", "os"], asg ["tmp_dir"] ["tempfile"],
   asg ["file_name_png"] ["os", "tmp_dir"], expW ["plt", "file_name_png"],
   asg ["file_name_pdf"] ["os", "tmp_dir"], expW ["plt", "file_name_pdf"],
   expS ["os", "tmp_dir"]],
  -- from skimage import feature
  [impS ["feature"]],
  -- coords = feature.corner_peaks(feature.corner_harris(camera), min_distance=3);
  -- print(coords.shape)
  [asg ["coords"] ["feature", "camera"], expS ["coords"]],
  -- plt.figure(); plt.imshow(camera); plt.plot(coords[:, 1], coords[:, 0], ...)
  [expS ["plt"], expS ["plt", "camera"], expS ["plt", "coords"]],
  -- exercise cell: comment only
  [],
  -- from skimage import draw, transform
  [impS ["draw", "transform"]],
  -- plt.figure(); coins = data.coins(); plt.imshow(coins); from skimage import color;
  -- coins_color = color.gray2rgb(coins); plt.imshow(coins_color)
  [expS ["plt"], asgR ["coins"] ["data"], expS ["plt", "coins"], impS ["color"],
   asg ["coins_color"] ["color", "coins"], expS ["plt", "coins_color"]],
  -- c_rr, c_cc = draw.circle_perimeter(53, 45, 22);
  -- coins_color[c_rr, c_cc] = (220, 20, 20); plt.imshow(coins_color[:200, :200])
  [asg ["c_rr", "c_cc"] ["draw"], mutS ("coins_color") ["coins_color", "c_rr", "c_cc"],
   expS ["plt", "coins_color"]],
  -- coffee = data.coffee(); from skimage import segmentation;
  -- superpixels = segmentation.slic(coffee); fig, ax = plt.subplots(...);
  -- ax = ax.ravel(); ax[0].imshow(superpixels); ax[1].imshow(mark_boundaries(...))
  [asgR ["coffee"] ["data"], impS ["segmentation"],
   asg ["superpixels"] ["segmentation", "coffee"], asg ["fig", "ax"] ["plt"],
   asg ["ax"] ["ax"], expS ["ax", "superpixels"],
   expS ["ax", "segmentation", "coffee", "superpixels"]]]

/-- The filtering notebook (filtering, morphology, segmentation), cell by
cell.  data.binary_blobs() synthesizes its boolean image in memory and
reads no file. -/
def filteringNb : List Cell := [
  -- %matplotlib inline; import numpy as np; import matplotlib.pyplot as plt
  [magicS, impS ["np"], impS ["plt"]],
  -- from skimage import img_as_float; def imshow_all(*images, **kwargs): ...
  [impS ["img_as_float"], defFun ("imshow_all")],
  -- from skimage import data, filters; coins = data.coins();
  -- coins_zoom = coins[10:80, 300:370]; plt.imshow(coins_zoom)
  [impS ["data", "filters"], asgR ["coins"] ["data"], asg ["coins_zoom"] ["coins"],
   expS ["plt", "coins_zoom"]],
  -- gaussian_coins = filters.gaussian(coins_zoom, 2); plt.imshow(gaussian_coins)
  [asg ["gaussian_coins"] ["filters", "coins_zoom"], expS ["plt", "gaussian_coins"]],
  -- median_coins = filters.rank.median(coins_zoom, np.ones((3, 3))); plt.imshow(...)
  [asg ["median_coins"] ["filters", "coins_zoom", "np"], expS ["plt", "median_coins"]],
  -- exercise cell: comment only
  [],
  -- plt.rcParams[image.cmap] = cubehelix
  [cfgS],
  -- image = np.array([[...]], dtype=np.uint8); plt.imshow(image)
  [asg ["image"] ["np"], expS ["plt", "image"]],
  -- from skimage import morphology; sq = morphology.square(width=3);
  -- dia = morphology.diamond(radius=1); print(sq); print(dia)
  [impS ["morphology"], asg ["sq"] ["morphology"], asg ["dia"] ["morphology"],
   expS ["sq"], expS ["dia"]],
  -- eroded = morphology.erosion(image, dia); imshow_all(image, eroded, shape=(1, 2))
  [asg ["eroded"] ["morphology", "image", "dia"], expS ["imshow_all", "image", "eroded"]],
  -- eroded_too_much = morphology.erosion(image, morphology.square(5)); imshow_all(...)
  [asg ["eroded_too_much"] ["morphology", "image"],
   expS ["imshow_all", "image", "eroded_too_much"]],
  -- dil_dia = morphology.dilation(eroded, dia); imshow_all(eroded, dil_dia, ...)
  [asg ["dil_dia"] ["morphology", "eroded", "dia"], expS ["imshow_all", "eroded", "dil_dia"]],
  -- dil_sq = morphology.dilation(eroded, sq); imshow_all(eroded, dil_sq, ...)
  [asg ["dil_sq"] ["morphology", "eroded", "sq"], expS ["imshow_all", "eroded", "dil_sq"]],
  -- im = data.binary_blobs() - 0.5; im += 0.4 * np.random.randn(*im.shape);
  -- noisy_im = im > 0; plt.imshow(noisy_im)
  [asg ["im"] ["data"], Stmt.mk .mutate [] ["im", "np"] (some "im") [],
   asg ["noisy_im"] ["im"], expS ["plt", "noisy_im"]],
  -- exercise cell: comment only
  [],
  -- plt.rcParams[image.cmap] = viridis
  [cfgS],
  -- coins = data.coins(); plt.imshow(coins); print(filters.threshold_otsu(coins));
  -- cs = plt.contour(coins, [30, 100, 150], ...); plt.colorbar(cs)
  [asgR ["coins"] ["data"], expS ["plt", "coins"], expS ["filters", "coins"],
   asg ["cs"] ["plt", "coins"], expS ["plt", "cs"]],
  -- edges = filters.sobel(coins); markers = np.zeros_like(coins);
  -- background, foreground = 1, 2; markers[coins < 30.0] = background;
  -- markers[coins > 150.0] = foreground; from skimage import segmentation;
  -- ws = segmentation.watershed(edges, markers); then a 13-statement figure block
  [asg ["edges"] ["filters", "coins"], asg ["markers"] ["np", "coins"],
   asg ["background", "foreground"] [],
   mutS ("markers") ["markers", "coins", "background"],
   mutS ("markers") ["markers", "coins", "foreground"],
   impS ["segmentation"], asg ["ws"] ["segmentation", "edges", "markers"],
   expS ["plt"], expS ["plt"], expS ["plt", "markers"], expS ["plt"], expS ["plt"],
   expS ["plt"], expS ["plt", "edges"], expS ["plt"], expS ["plt"],
   expS ["plt"], expS ["plt", "ws"], expS ["plt"], expS ["plt"]],
  -- from skimage import util, color; grid = util.regular_grid(coins.shape, n_points=100);
  -- seeds = np.zeros(coins.shape, dtype=int);
  -- seeds[grid] = np.arange(seeds[grid].size).reshape(seeds[grid].shape) + 1;
  -- ws_seeds = segmentation.watershed(edges, seeds, compactness=0.01);
  -- fig, (ax0, ax1) = plt.subplots(1, 2, ...); ax0.imshow(coins);
  -- ax0.contour(seeds > 0, ...); ax0.set_title(...); ax1.imshow(label2rgb(...));
  -- ax1.set_title(...)
  [impS ["util", "color"], asg ["grid"] ["util", "coins"], asg ["seeds"] ["np", "coins"],
   mutS ("seeds") ["seeds", "grid", "np"],
   asg ["ws_seeds"] ["segmentation", "edges", "seeds"],
   asg ["fig", "ax0", "ax1"] ["plt"], expS ["ax0", "coins"], expS ["ax0", "seeds"],
   expS ["ax0"], expS ["ax1", "color", "ws_seeds", "coins"], expS ["ax1"]],
  -- plt.imshow(ws)
  [expS ["plt", "ws"]],
  -- from skimage import measure; labels = measure.label(ws); plt.imshow(labels);
  -- print(number of coins, labels.max())
  [impS ["measure"], asg ["labels"] ["measure", "ws"], expS ["plt", "labels"],
   expS ["labels"]],
  -- plt.imshow(labels == 10)
  [expS ["plt", "labels"]],
  -- properties = measure.regionprops(labels, coins); print(properties);
  -- print(dir(properties[0]))
  [asg ["properties"] ["measure", "labels", "coins"], expS ["properties"],
   expS ["properties"]],
  -- areas = [prop.area for prop in properties]; print(areas);
  -- mean_intensities = [prop.mean_intensity for prop in properties]; print(...)
  [asg ["areas"] ["properties"], expS ["areas"],
   asg ["mean_intensities"] ["properties"], expS ["mean_intensities"]],
  -- from skimage import feature; canny = feature.canny(coins); plt.imshow(canny)
  [impS ["feature"], asg ["canny"] ["feature", "coins"], expS ["plt", "canny"]],
  -- sobel = filters.sobel(coins); plt.imshow(sobel); plt.colorbar()
  [asg ["sobel"] ["filters", "coins"], expS ["plt", "sobel"], expS ["plt"]],
  -- plt.imshow(sobel > 0.15)
  [expS ["plt", "sobel"]],
  -- text = data.text(); coords = feature.corner_peaks(feature.corner_harris(text), ...);
  -- plt.imshow(text); plt.plot(coords[:, 1], coords[:, 0], ...)
  [asgR ["text"] ["data"], asg ["coords"] ["feature", "text"], expS ["plt", "text"],
   expS ["plt", "coords"]]]

/-- The three notebooks of the repository. -/
def allNotebooks : List (List Cell) := [arraysNb, visualizationNb, filteringNb]

/-- All code cells of the repository, in notebook order. -/
def allCells : List Cell := arraysNb ++ visualizationNb ++ filteringNb

/-- All top-level statements of the repository, in execution order. -/
def allStmts : List Stmt := allCells.flatten

/-- Does every name the statement reads already have a binding? -/
def readsOK (env : List String) (s : Stmt) : Bool :=
  s.reads.all (fun r => env.contains r)

/-- Run a cell statement by statement starting from the environment `env`
of bound names: the Bool records whether every read was of a bound name,
and the returned list is the extended environment. -/
def cellCheck (env : List String) : Cell → Bool × List String
  | [] => (true, env)
  | s :: rest =>
    if readsOK env s then cellCheck (env ++ s.binds) rest else (false, env)

/-- A cell is independent when it can run in an empty environment: every
name it reads is bound earlier in the same cell. -/
def cellIndependent (c : Cell) : Bool := (cellCheck [] c).1

/-- Check a whole notebook cell by cell, threading the environment. -/
def nbCheck (env : List String) : List Cell → Bool
  | [] => true
  | c :: cs =>
    let r := cellCheck env c
    r.1 && nbCheck r.2 cs

/-- Top-to-bottom soundness of a notebook: executed once in order, every
name each statement reads was bound by an earlier statement. -/
def topToBottom (nb : List Cell) : Bool := nbCheck [] nb

/-- The statements that define a local function. -/
def localFunctionDefs : List Stmt :=
  allStmts.filter (fun s => s.kind == StmtKind.defineFun)

/-- Names bound by assignment statements: the derived entities produced by
library calls (masks, copies, filtered images, label maps, marker arrays,
coordinate lists, region-property lists, ...). -/
def derivedNames : List String :=
  ((allStmts.filter (fun s => s.kind == StmtKind.assign)).map Stmt.binds).flatten

/-- The external accesses the specification allows: reads of bundled
sample images, and writes through a library encode call into the freshly
created temporary directory.  Network access is never allowed. -/
def allowedAccess : ExtAccess → Bool
  | .fileRead bundled _ => bundled
  | .fileWrite toTemp viaCodec => toTemp && viaCodec
  | .network => false

/-- All external accesses performed by the notebooks, in order. -/
def allAccesses : List ExtAccess := (allStmts.map Stmt.ext).flatten

/-- All names bound anywhere in the filtering notebook (the notebook that
defines and calls imshow_all). -/
def filteringBinds : List String := ((filteringNb.flatten).map Stmt.binds).flatten

/-- A Python exception, as far as the notebooks can observe one. -/
inductive PyErr
  | nameError (missing : String)
  | valueError
  | indexError
deriving DecidableEq, Repr

/-- Run statements in order under an oracle `f` giving each library call
outcome.  There is no handler construct: the first error is returned
as is, and later statements do not run. -/
def runStmts (f : Stmt → Except PyErr Unit) : List Stmt → Except PyErr Unit
  | [] => .ok ()
  | s :: rest =>
    match f s with
    | .error e => .error e
    | .ok _ => runStmts f rest

/-- Did the statement `s` raise exactly the exception `e` under the
library-call oracle `f`? -/
def raisesErr (f : Stmt → Except PyErr Unit) (e : PyErr) (s : Stmt) : Bool :=
  match f s with
  | .error e2 => e2 == e
  | .ok _ => false

/-- A numpy image as the notebooks use one: a uint8 array (each sample in
0..255) or a float array.  Pixel lists are flattened; floats are
rationals. -/
inductive PyImg
  | u8 (pixels : List Nat)
  | fl (pixels : List Rat)
deriving DecidableEq, Repr

/-- skimage img_as_float: uint8 samples are mapped to x / 255; float
samples are kept unchanged. -/
def imgAsFloat : PyImg → List Rat
  | .u8 p => p.map (fun (x : Nat) => (x : Rat) / 255)
  | .fl p => p

/-- numpy uint8 scalar-times-image: each product wraps modulo 2^8, as in
camera_overflow = 2 * camera. -/
def u8scale (k : Nat) (img : List Nat) : List Nat :=
  img.map (fun x => (k * x) % 256)

/-- the arrays-notebook statement camera_overflow = 2 * camera -/
def cameraOverflow (camera : List Nat) : List Nat := u8scale 2 camera

/-- every sample is in the uint8 range 0..2^8-1 -/
def inU8Range (img : List Nat) : Bool := img.all (fun x => x < 256)

/-- every sample is in the floating-point range 0..1 -/
def inUnitRange (img : List Rat) : Bool :=
  img.all (fun q => decide (0 ≤ q) && decide (q ≤ 1))

/-- the filtering-notebook statement im = data.binary_blobs() - 0.5:
numpy broadcasts the boolean samples to floats (True = 1.0, False =
0.0) and subtracts 0.5. -/
def binaryBlobsMinusHalf (blobs : List Bool) : List Rat :=
  blobs.map (fun b => (if b then (1 : Rat) else 0) - 1/2)

/-- A representative output of data.binary_blobs(): a boolean image.  The
notebook narration describes it as a binary image with large blobs and
background, so both values occur. -/
def blobsSample : List Bool := [true, false, true, true, false]

/-- builtin min over a nonempty sequence (numpy img.min() and Python min
agree on this); None models the ValueError both raise on an empty one. -/
def pyMin : List Rat → Option Rat
  | [] => none
  | x :: xs => some (xs.foldl min x)

/-- builtin max over a nonempty sequence; None models the empty case. -/
def pyMax : List Rat → Option Rat
  | [] => none
  | x :: xs => some (xs.foldl max x)

/-- the per-image minima img.min() for img in images; None as soon as one
image is empty. -/
def imageMins : List (List Rat) → Option (List Rat)
  | [] => some []
  | f :: fs =>
    match pyMin f, imageMins fs with
    | some m, some ms => some (m :: ms)
    | _, _ => none

/-- the per-image maxima img.max() for img in images. -/
def imageMaxs : List (List Rat) → Option (List Rat)
  | [] => some []
  | f :: fs =>
    match pyMax f, imageMaxs fs with
    | some m, some ms => some (m :: ms)
    | _, _ => none

/-- The intensity limits imshow_all computes in its limits == image
branch: min(img.min() for img in images) and max(img.max() for img in
images), over the already-converted float images.  kwargs.setdefault
evaluates both aggregates eagerly, so an empty image or an empty image
list yields an error (modelled as none) even when explicit limits were
passed. -/
def imageLimits (images : List PyImg) : Option (Rat × Rat) :=
  let floats := images.map imgAsFloat
  match (imageMins floats).bind pyMin, (imageMaxs floats).bind pyMax with
  | some a, some b => some (a, b)
  | _, _ => none

/-- imshow_all title handling: when the number of titles differs from the
number of images, Python appends ([] * negative is empty, so extra
titles are kept unchanged and missing ones become empty strings). -/
def noTitle : String := ""

/-- titles = list(titles) + [] * (len(images) - len(titles)) when the
lengths differ (Nat subtraction matches the empty list Python produces
for a negative multiplier), else titles unchanged. -/
def pyPadTitles (titles : List String) (n : Nat) : List String :=
  if titles.length ≠ n then titles ++ List.replicate (n - titles.length) noTitle
  else titles

/-- the value of the limits keyword argument of imshow_all (the two
values its body distinguishes) -/
inductive Limits
  | image
  | dtype
deriving DecidableEq, Repr

/-- The binding of the name dtype_limits as the imshow_all body resolves
it at call time: no statement of the filtering notebook binds or imports
it (see the theorem on filteringBinds), so the lookup finds nothing. -/
def dtypeLimitsBinding : Option (List Rat → Rat × Rat) := none

/-- One subplot rendered by imshow_all: the (converted) image shown, the
title set on the axis, and the vmin/vmax passed to ax.imshow. -/
structure ShowEff where
  img : List Rat
  title : String
  vmin : Rat
  vmax : Rat
deriving DecidableEq, Repr

/-- The imshow_all helper of the filtering notebook.  In order, as in its
body: convert every input image to float; pad or keep the titles; resolve
the intensity limits (limits == image computes the shared min/max with
kwargs.setdefault, so explicit vmin/vmax keyword arguments take
precedence but the aggregates are still evaluated; limits == dtype looks
up the name dtype_limits, which is unbound, so a NameError is raised
before any figure or axis is created); then create one axis per image
with plt.subplots(1, len(images)) and zip axes, images and titles,
calling ax.imshow(img, **kwargs) and ax.set_title(label) on each.  The
result is the list of rendered subplots, or the exception. -/
def imshowAllRun (images : List PyImg) (titles : List String) (limits : Limits)
    (vminArg vmaxArg : Option Rat) : Except PyErr (List ShowEff) :=
  let floats := images.map imgAsFloat
  let titles2 := pyPadTitles titles floats.length
  let limres : Except PyErr (Rat × Rat) :=
    match limits with
    | .image =>
      match imageLimits images with
      | some p => .ok (vminArg.getD p.1, vmaxArg.getD p.2)
      | none => .error .valueError
    | .dtype =>
      match dtypeLimitsBinding with
      | none => .error (.nameError ("dtype_limits"))
      | some f =>
        match floats.head? with
        | none => .error .indexError
        | some i0 => .ok (vminArg.getD (f i0).1, vmaxArg.getD (f i0).2)
  match limres with
  | .error e => .error e
  | .ok p => .ok ((floats.zip titles2).map (fun q => ⟨q.1, q.2, p.1, p.2⟩))

/-- all pixel samples of all images, after conversion to float -/
def allPixels (images : List PyImg) : List Rat := (images.map imgAsFloat).flatten

/-! Helper lemmas about the minimum/maximum folds of pyMin/pyMax. -/

/-- Pushing an extra seed through a min fold. -/
theorem foldlMin_push (x y : Rat) (l : List Rat) :
    l.foldl min (min x y) = min x (l.foldl min y) := by
  induction l generalizing y with
  | nil => rfl
  | cons z l ih =>
    show l.foldl min (min (min x y) z) = min x (l.foldl min (min y z))
    rw [min_assoc, ih]

/-- Pushing an extra seed through a max fold. -/
theorem foldlMax_push (x y : Rat) (l : List Rat) :
    l.foldl max (max x y) = max x (l.foldl max y) := by
  induction l generalizing y with
  | nil => rfl
  | cons z l ih =>
    show l.foldl max (max (max x y) z) = max x (l.foldl max (max y z))
    rw [max_assoc, ih]

/-- A min fold lands in the folded list and bounds every element below. -/
theorem foldlMin_spec (x : Rat) (xs : List Rat) :
    xs.foldl min x ∈ x :: xs ∧ ∀ q ∈ x :: xs, xs.foldl min x ≤ q := by
  induction xs generalizing x with
  | nil =>
    constructor
    · simp
    · intro q hq
      simp only [List.mem_singleton] at hq
      simp [hq]
  | cons y ys ih =>
    have h1 := (ih (min x y)).1
    have h2 := (ih (min x y)).2
    constructor
    · show ys.foldl min (min x y) ∈ x :: y :: ys
      rcases List.mem_cons.mp h1 with he | he
      · rcases min_choice x y with hc | hc
        · rw [he, hc]; exact List.mem_cons_self _ _
        · rw [he, hc]
          exact List.mem_cons_of_mem _ (List.mem_cons_self _ _)
      · exact List.mem_cons_of_mem _ (List.mem_cons_of_mem _ he)
    · intro q hq
      show ys.foldl min (min x y) ≤ q
      rcases List.mem_cons.mp hq with rfl | hq
      · exact le_trans (h2 _ (List.mem_cons_self _ _)) (min_le_left _ _)
      rcases List.mem_cons.mp hq with rfl | hq
      · exact le_trans (h2 _ (List.mem_cons_self _ _)) (min_le_right _ _)
      · exact h2 _ (List.mem_cons_of_mem _ hq)

/-- A max fold lands in the folded list and bounds every element above. -/
theorem foldlMax_spec (x : Rat) (xs : List Rat) :
    xs.foldl max x ∈ x :: xs ∧ ∀ q ∈ x :: xs, q ≤ xs.foldl max x := by
  induction xs generalizing x with
  | nil =>
    constructor
    · simp
    · intro q hq
      simp only [List.mem_singleton] at hq
      simp [hq]
  | cons y ys ih =>
    have h1 := (ih (max x y)).1
    have h2 := (ih (max x y)).2
    constructor
    · show ys.foldl max (max x y) ∈ x :: y :: ys
      rcases List.mem_cons.mp h1 with he | he
      · rcases max_choice x y with hc | hc
        · rw [he, hc]; exact List.mem_cons_self _ _
        · rw [he, hc]
          exact List.mem_cons_of_mem _ (List.mem_cons_self _ _)
      · exact List.mem_cons_of_mem _ (List.mem_cons_of_mem _ he)
    · intro q hq
      show q ≤ ys.foldl max (max x y)
      rcases List.mem_cons.mp hq with rfl | hq
      · exact le_trans (le_max_left _ _) (h2 _ (List.mem_cons_self _ _))
      rcases List.mem_cons.mp hq with rfl | hq
      · exact le_trans (le_max_right _ _) (h2 _ (List.mem_cons_self _ _))
      · exact h2 _ (List.mem_cons_of_mem _ hq)

/-- pyMin of a nonempty list exists. -/
theorem pyMin_eq_some {xs : List Rat} (h : xs ≠ []) : ∃ m, pyMin xs = some m := by
  cases xs with
  | nil => exact absurd rfl h
  | cons x t => exact ⟨t.foldl min x, rfl⟩

/-- pyMax of a nonempty list exists. -/
theorem pyMax_eq_some {xs : List Rat} (h : xs ≠ []) : ∃ m, pyMax xs = some m := by
  cases xs with
  | nil => exact absurd rfl h
  | cons x t => exact ⟨t.foldl max x, rfl⟩

/-- The value pyMin returns is an element of the list. -/
theorem pyMin_mem {xs : List Rat} {m : Rat} (h : pyMin xs = some m) : m ∈ xs := by
  cases xs with
  | nil => exact absurd h (by simp [pyMin])
  | cons x t =>
    obtain rfl : t.foldl min x = m := by simpa [pyMin] using h
    exact (foldlMin_spec x t).1

/-- The value pyMax returns is an element of the list. -/
theorem pyMax_mem {xs : List Rat} {m : Rat} (h : pyMax xs = some m) : m ∈ xs := by
  cases xs with
  | nil => exact absurd h (by simp [pyMax])
  | cons x t =>
    obtain rfl : t.foldl max x = m := by simpa [pyMax] using h
    exact (foldlMax_spec x t).1

/-- The value pyMin returns bounds every element below. -/
theorem pyMin_le {xs : List Rat} {m : Rat} (h : pyMin xs = some m) :
    ∀ q ∈ xs, m ≤ q := by
  cases xs with
  | nil => exact absurd h (by simp [pyMin])
  | cons x t =>
    obtain rfl : t.foldl min x = m := by simpa [pyMin] using h
    exact (foldlMin_spec x t).2

/-- The value pyMax returns bounds every element above. -/
theorem pyMax_ge {xs : List Rat} {m : Rat} (h : pyMax xs = some m) :
    ∀ q ∈ xs, q ≤ m := by
  cases xs with
  | nil => exact absurd h (by simp [pyMax])
  | cons x t =>
    obtain rfl : t.foldl max x = m := by simpa [pyMax] using h
    exact (foldlMax_spec x t).2

/-- min(img.min() for img in images) is the least pixel over all images:
the two-stage aggregate of imshow_all computes the global minimum. -/
theorem chainMin (fs : List (List Rat)) (hne : fs ≠ []) (hall : ∀ f ∈ fs, f ≠ []) :
    ∃ m, (imageMins fs).bind pyMin = some m ∧ m ∈ fs.flatten ∧
      ∀ q ∈ fs.flatten, m ≤ q := by
  induction fs with
  | nil => exact absurd rfl hne
  | cons f fs ih =>
    obtain ⟨mf, hmf⟩ := pyMin_eq_some (hall f (List.mem_cons_self _ _))
    cases fs with
    | nil =>
      refine ⟨mf, ?_, ?_, ?_⟩
      · rw [imageMins, hmf]
        rfl
      · simpa using pyMin_mem hmf
      · intro q hq
        exact pyMin_le hmf q (by simpa using hq)
    | cons g gs =>
      obtain ⟨m2, hbind, hmem, hle⟩ :=
        ih (by simp) (fun x hx => hall x (List.mem_cons_of_mem _ hx))
      obtain ⟨ms, hms, hpm⟩ := Option.bind_eq_some.mp hbind
      cases ms with
      | nil => exact absurd hpm (by simp [pyMin])
      | cons c cs =>
        have himg : imageMins (f :: g :: gs) = some (mf :: c :: cs) := by
          rw [imageMins, hmf, hms]
        have hm2 : cs.foldl min c = m2 := by simpa [pyMin] using hpm
        refine ⟨min mf m2, ?_, ?_, ?_⟩
        · rw [himg]
          show pyMin (mf :: c :: cs) = some (min mf m2)
          rw [pyMin]
          show some ((c :: cs).foldl min mf) = some (min mf m2)
          rw [← hm2]
          exact congrArg some (foldlMin_push mf c cs)
        · rw [List.flatten_cons]
          rcases min_choice mf m2 with hc | hc
          · rw [hc]; exact List.mem_append_left _ (pyMin_mem hmf)
          · rw [hc]; exact List.mem_append_right _ hmem
        · intro q hq
          rw [List.flatten_cons] at hq
          rcases List.mem_append.mp hq with hq | hq
          · exact le_trans (min_le_left _ _) (pyMin_le hmf q hq)
          · exact le_trans (min_le_right _ _) (hle q hq)

/-- max(img.max() for img in images) is the greatest pixel over all
images: the two-stage aggregate of imshow_all computes the global
maximum. -/
theorem chainMax (fs : List (List Rat)) (hne : fs ≠ []) (hall : ∀ f ∈ fs, f ≠ []) :
    ∃ m, (imageMaxs fs).bind pyMax = some m ∧ m ∈ fs.flatten ∧
      ∀ q ∈ fs.flatten, q ≤ m := by
  induction fs with
  | nil => exact absurd rfl hne
  | cons f fs ih =>
    obtain ⟨mf, hmf⟩ := pyMax_eq_some (hall f (List.mem_cons_self _ _))
    cases fs with
    | nil =>
      refine ⟨mf, ?_, ?_, ?_⟩
      · rw [imageMaxs, hmf]
        rfl
      · simpa using pyMax_mem hmf
      · intro q hq
        exact pyMax_ge hmf q (by simpa using hq)
    | cons g gs =>
      obtain ⟨m2, hbind, hmem, hle⟩ :=
        ih (by simp) (fun x hx => hall x (List.mem_cons_of_mem _ hx))
      obtain ⟨ms, hms, hpm⟩ := Option.bind_eq_some.mp hbind
      cases ms with
      | nil => exact absurd hpm (by simp [pyMax])
      | cons c cs =>
        have himg : imageMaxs (f :: g :: gs) = some (mf :: c :: cs) := by
          rw [imageMaxs, hmf, hms]
        have hm2 : cs.foldl max c = m2 := by simpa [pyMax] using hpm
        refine ⟨max mf m2, ?_, ?_, ?_⟩
        · rw [himg]
          show pyMax (mf :: c :: cs) = some (max mf m2)
          rw [pyMax]
          show some ((c :: cs).foldl max mf) = some (max mf m2)
          rw [← hm2]
          exact congrArg some (foldlMax_push mf c cs)
        · rw [List.flatten_cons]
          rcases max_choice mf m2 with hc | hc
          · rw [hc]; exact List.mem_append_left _ (pyMax_mem hmf)
          · rw [hc]; exact List.mem_append_right _ hmem
        · intro q hq
          rw [List.flatten_cons] at hq
          rcases List.mem_append.mp hq with hq | hq
          · exact le_trans (pyMax_ge hmf q hq) (le_max_left _ _)
          · exact le_trans (hle q hq) (le_max_right _ _)

/-! Helper lemmas about the title padding of imshow_all. -/

/-- The title padding is an append in every case: when the lengths agree
the appended pad is empty. -/
theorem padTitles_append (t : List String) (n : Nat) :
    pyPadTitles t n = t ++ List.replicate (n - t.length) noTitle := by
  unfold pyPadTitles
  split
  · rfl
  · rename_i h
    have hz : n - t.length = 0 := by omega
    simp [hz]

/-- The padded title list has length max (len titles) (len images). -/
theorem padTitles_length (t : List String) (n : Nat) :
    (pyPadTitles t n).length = max t.length n := by
  rw [padTitles_append]
  simp
  omega

/-- Taking the first n padded titles yields, at index i, the i-th
supplied title, or the empty string when fewer titles were supplied. -/
theorem padTitles_take (t : List String) (n : Nat) :
    (t ++ List.replicate (n - t.length) noTitle).take n
      = (List.range n).map (fun i => t.getD i noTitle) := by
  induction n generalizing t with
  | zero => simp
  | succ n ih =>
    cases t with
    | nil =>
      simp [List.range_succ_eq_map, List.map_map, Function.comp_def, List.map_const',
        List.replicate_succ]
    | cons a t0 =>
      rw [List.length_cons, Nat.succ_sub_succ, List.cons_append, List.take_succ_cons, ih]
      rw [List.range_succ_eq_map, List.map_cons, List.map_map]
      simp [Function.comp_def]

/-- The second components of a zip are a prefix of the second list. -/
theorem zip_map_snd_take {α β : Type} (l₁ : List α) (l₂ : List β) :
    (l₁.zip l₂).map Prod.snd = l₂.take l₁.length := by
  induction l₁ generalizing l₂ with
  | nil => simp
  | cons a t ih =>
    cases l₂ with
    | nil => simp
    | cons b u => simp [ih]

/-- Errors reported by a straight-line run come from a statement of the
run, unchanged. -/
theorem runStmts_error_mem (f : Stmt → Except PyErr Unit) (e : PyErr) :
    ∀ l : List Stmt, runStmts f l = Except.error e →
      (l.any (raisesErr f e)) = true := by
  intro l
  induction l with
  | nil => intro h; exact absurd h (by simp [runStmts])
  | cons s rest ih =>
    intro h
    unfold runStmts at h
    cases hf : f s with
    | error e2 =>
      rw [hf] at h
      obtain rfl : e2 = e := by simpa using h
      simp [List.any_cons, raisesErr, hf]
    | ok u =>
      rw [hf] at h
      simp [List.any_cons, raisesErr, hf, ih h]

/-! The claims. -/

/-- Claim C1, as stated, is false on the code: the claim says every
operation is a single synchronous library call plus a display or save
step with no locally implemented computation, but the filtering notebook
contains a def statement — the locally implemented helper imshow_all
(title padding, shared intensity limits, subplot layout). -/
theorem spec_C1_counterexample :
    (allStmts.all (fun s => !(s.kind == StmtKind.defineFun))) = false := by rfl

/-- Claim C1 (amended): the only locally implemented computation in the
repository is the single def statement defining the display helper
imshow_all; every other statement of every code cell is an import, an
IPython magic, an assignment of a library-expression result, an in-place
indexed store, a library-config write, or a display/save expression
statement. -/
theorem spec_C1_theorem :
    localFunctionDefs.map Stmt.binds = [["imshow_all"]] := by rfl

/-- Claim C2, as stated, is false on the code: cells are not independent.
Already the third cell of the arrays notebook, type(coins), reads the
variable coins bound by an earlier cell (and the masks cell reads coins
the same way), so running a cell without the earlier ones fails. -/
theorem spec_C2_counterexample :
    (allNotebooks.all (fun nb => nb.all cellIndependent)) = false := by rfl

/-- Claim C2 (amended): cells are not independent — later cells read
variables bound by earlier cells — but each notebook is top-to-bottom
sound: executed once in order, every name a statement reads was bound by
an earlier statement (of the same or an earlier cell), and no cell needs
a binding made only later, so there are no feedback loops. -/
theorem spec_C2_theorem :
    (allNotebooks.all topToBottom) = true := by rfl

/-- Claim C3, as stated, is false on the code: not every step leaves its
input array unchanged.  The arrays notebook runs the in-place store
cat[10:110, 10:110, :] = [255, 0, 0], and the visualization notebook
runs coins_color[c_rr, c_cc] = (220, 20, 20), both mutating an existing
array instead of producing a new one. -/
theorem spec_C3_counterexample :
    (allStmts.all (fun s => s.target == none)) = false := by rfl

/-- Claim C3 (amended): every library transformation call binds a new
array and leaves its input unchanged; the only statements that modify an
existing array in place are the seven direct indexed/augmented stores,
whose targets are exactly cat, coins_bg, coins_color, im, markers
(twice) and seeds, in that order. -/
theorem spec_C3_theorem :
    allStmts.filterMap Stmt.target
      = ["cat", "coins_bg", "coins_color", "im", "markers", "markers", "seeds"] := by rfl

/-- Claim C4, as stated, is false on the code: it says every float image
has all values in 0..1, but the filtering notebook computes
im = data.binary_blobs() - 0.5, whose values are -0.5 (on background
pixels) and 0.5, so a value lies outside 0..1. -/
theorem spec_C4_counterexample :
    inUnitRange (binaryBlobsMinusHalf blobsSample) = false := by
  norm_num [inUnitRange, binaryBlobsMinusHalf, blobsSample]

/-- Claim C4 (amended): unsigned-integer images always stay in the dtype
range 0..2^n-1 — doubling a uint8 image wraps modulo 2^8 as in
camera_overflow = 2 * camera — and floats obtained by converting a uint8
image with img_as_float lie in 0..1; but float arrays produced by plain
arithmetic need not: every sample of data.binary_blobs() - 0.5 is either
-0.5 or 0.5. -/
theorem spec_C4_theorem (camera : List Nat) (blobs : List Bool)
    (h : inU8Range camera = true) :
    inU8Range (cameraOverflow camera) = true ∧
    inUnitRange (imgAsFloat (PyImg.u8 camera)) = true ∧
    ((binaryBlobsMinusHalf blobs).all
      (fun q => q == -(1/2 : Rat) || q == (1/2 : Rat))) = true := by
  refine ⟨?_, ?_, ?_⟩
  · apply List.all_eq_true.mpr
    intro x hx
    have hx2 : x ∈ camera.map (fun y => (2 * y) % 256) := hx
    obtain ⟨y, hy, rfl⟩ := List.mem_map.mp hx2
    simpa using Nat.mod_lt (2 * y) (by norm_num)
  · apply List.all_eq_true.mpr
    intro q hq
    have hq2 : q ∈ camera.map (fun (x : Nat) => (x : Rat) / 255) := hq
    obtain ⟨y, hy, rfl⟩ := List.mem_map.mp hq2
    have hy255 : y < 256 := by simpa using List.all_eq_true.mp h y hy
    have h0 : (0 : Rat) ≤ (y : Rat) / 255 := by positivity
    have hle : ((y : Rat)) / 255 ≤ 1 := by
      rw [div_le_one (by norm_num)]
      exact_mod_cast Nat.le_of_lt_succ hy255
    simp [h0, hle]
  · apply List.all_eq_true.mpr
    intro q hq
    obtain ⟨b, hb, rfl⟩ := List.mem_map.mp hq
    cases b
    · simp only [Bool.or_eq_true, beq_iff_eq]
      left
      norm_num
    · simp only [Bool.or_eq_true, beq_iff_eq]
      right
      norm_num

/-- Witness for claim C4 at the concrete uint8 image [0, 100, 255] and
the representative blobs image. -/
theorem spec_C4_witness :
    inU8Range [0, 100, 255] = true ∧
    (inU8Range (cameraOverflow [0, 100, 255]) = true ∧
     inUnitRange (imgAsFloat (PyImg.u8 [0, 100, 255])) = true ∧
     ((binaryBlobsMinusHalf blobsSample).all
       (fun q => q == -(1/2 : Rat) || q == (1/2 : Rat))) = true) :=
  ⟨by decide, spec_C4_theorem [0, 100, 255] blobsSample (by decide)⟩

/-- Claim C5, as stated, is false on the code: derived arrays are
written after production.  markers = np.zeros_like(coins) is followed by
markers[coins < 30.0] = background, and seeds = np.zeros(coins.shape) is
followed by seeds[grid] = np.arange(...) + 1. -/
theorem spec_C5_counterexample :
    (allStmts.all (fun s =>
      match s.target with
      | some t => !(derivedNames.contains t)
      | none => true)) = false := by rfl

set_option maxRecDepth 8000 in
/-- Claim C5 (amended): derived entities are transient outputs of
library calls and, with six exceptions, are never written afterwards;
the exceptions are exactly the arrays cat, coins_bg, coins_color, im,
markers and seeds, each written by direct indexed stores (drawing into a
copy, or initializing marker/seed arrays just after their creation). -/
theorem spec_C5_theorem :
    ((allStmts.filterMap Stmt.target).filter
        (fun t => derivedNames.contains t)).dedup
      = ["cat", "coins_bg", "coins_color", "im", "markers", "seeds"] := by rfl

/-- Claim C6: every file interaction of the notebooks is either a read
of a bundled sample image or a write of a demonstration output into the
freshly created temporary directory through a library-provided image
encode call, and no network access occurs: every recorded external
access of every statement is allowed. -/
theorem spec_C6_theorem :
    (allAccesses.all allowedAccess) = true := by rfl

set_option maxRecDepth 8000 in
/-- Claim C7: the notebooks never catch, retry or translate errors.  No
statement of any notebook is a try/except construct, and when a
straight-line run of all statements under any library-call outcome
oracle ends in an exception, that exception is exactly the one some
statement raised — propagated unchanged to the top level, not wrapped
and not re-attempted (runStmts runs each statement at most once, in
order, and stops at the first error). -/
theorem spec_C7_theorem (f : Stmt → Except PyErr Unit) (e : PyErr)
    (h : runStmts f allStmts = Except.error e) :
    (allStmts.all (fun s => !(s.kind == StmtKind.tryExcept))) = true ∧
    (allStmts.any (raisesErr f e)) = true :=
  ⟨by rfl, runStmts_error_mem f e allStmts h⟩

/-- Witness for claim C7 under the oracle that fails every call with
ValueError: the run fails and the error is traced to a statement. -/
theorem spec_C7_witness :
    (allStmts.all (fun s => !(s.kind == StmtKind.tryExcept))) = true ∧
    (allStmts.any (raisesErr
      (fun _ => Except.error PyErr.valueError) PyErr.valueError)) = true :=
  spec_C7_theorem (fun _ => Except.error PyErr.valueError) PyErr.valueError (by rfl)

/-- Claim C8: calling imshow_all with the default limits=image and no
explicit vmin/vmax converts every input image to float and sets
vmin/vmax to the minimum/maximum pixel value over all converted images,
so every subplot is rendered with that one shared intensity scale: the
run succeeds, shows exactly the converted images, and the common
vmin/vmax pair consists of pixel values attained in some image and
bounding every pixel of every image. -/
theorem spec_C8_theorem (images : List PyImg) (titles : List String)
    (h1 : images ≠ []) (h2 : ∀ f ∈ images.map imgAsFloat, f ≠ []) :
    (imageLimits images).isSome = true ∧
    (let mM := (imageLimits images).getD (0, 0)
     imshowAllRun images titles Limits.image none none =
        Except.ok (((images.map imgAsFloat).zip
            (pyPadTitles titles (images.map imgAsFloat).length)).map
          (fun p => ⟨p.1, p.2, mM.1, mM.2⟩)) ∧
     decide (mM.1 ∈ allPixels images) = true ∧
     decide (mM.2 ∈ allPixels images) = true ∧
     (allPixels images).all
        (fun q => decide (mM.1 ≤ q) && decide (q ≤ mM.2)) = true) := by
  have hfne : images.map imgAsFloat ≠ [] := by
    cases images with
    | nil => exact absurd rfl h1
    | cons i is => simp
  obtain ⟨m, hm, hmmem, hmle⟩ := chainMin (images.map imgAsFloat) hfne h2
  obtain ⟨M, hM, hMmem, hMle⟩ := chainMax (images.map imgAsFloat) hfne h2
  have hlim : imageLimits images = some (m, M) := by
    simp only [imageLimits]
    rw [hm, hM]
  constructor
  · rw [hlim]; rfl
  · rw [hlim]
    simp only [Option.getD_some]
    refine ⟨?_, ?_, ?_, ?_⟩
    · simp only [imshowAllRun, hlim, Option.getD_none]
    · exact decide_eq_true hmmem
    · exact decide_eq_true hMmem
    · apply List.all_eq_true.mpr
      intro q hq
      have hq2 : q ∈ (images.map imgAsFloat).flatten := hq
      simp [hmle q hq2, hMle q hq2]

/-- Witness for claim C8 at two concrete images, one uint8 and one
float, with no titles. -/
theorem spec_C8_witness :
    (imageLimits [PyImg.fl [5, 1], PyImg.fl [3, 7]]).isSome = true ∧
    (let mM := (imageLimits [PyImg.fl [5, 1], PyImg.fl [3, 7]]).getD (0, 0)
     imshowAllRun [PyImg.fl [5, 1], PyImg.fl [3, 7]] [] Limits.image none none =
        Except.ok ((([PyImg.fl [5, 1], PyImg.fl [3, 7]].map imgAsFloat).zip
            (pyPadTitles [] ([PyImg.fl [5, 1], PyImg.fl [3, 7]].map imgAsFloat).length)).map
          (fun p => ⟨p.1, p.2, mM.1, mM.2⟩)) ∧
     decide (mM.1 ∈ allPixels [PyImg.fl [5, 1], PyImg.fl [3, 7]]) = true ∧
     decide (mM.2 ∈ allPixels [PyImg.fl [5, 1], PyImg.fl [3, 7]]) = true ∧
     (allPixels [PyImg.fl [5, 1], PyImg.fl [3, 7]]).all
        (fun q => decide (mM.1 ≤ q) && decide (q ≤ mM.2)) = true) :=
  spec_C8_theorem [PyImg.fl [5, 1], PyImg.fl [3, 7]] [] (by decide)
    (by
      intro f hf
      simp only [List.map_cons, List.map_nil, imgAsFloat, List.mem_cons,
        List.not_mem_nil, or_false] at hf
      rcases hf with rfl | rfl
      · simp
      · simp)

/-- Claim C9: calling imshow_all with limits=dtype always fails with a
NameError before anything is plotted, for every input: the helper name
dtype_limits it invokes is bound by no statement of the filtering
notebook, so the call-time lookup raises, and no subplot list is
produced. -/
theorem spec_C9_theorem :
    (filteringBinds.contains ("dtype_limits")) = false ∧
    ∀ (images : List PyImg) (titles : List String) (vminArg vmaxArg : Option Rat),
      imshowAllRun images titles Limits.dtype vminArg vmaxArg
        = Except.error (PyErr.nameError ("dtype_limits")) :=
  ⟨by rfl, fun _ _ _ _ => rfl⟩

/-- Claim C10: imshow_all pads missing titles with empty strings and
silently ignores extra ones.  Whenever a call with the default limits
succeeds, the rendered subplots are exactly the converted input images
in order, and the i-th subplot carries the i-th supplied title, or the
empty string when fewer titles than images were supplied; extra titles
beyond the number of images never appear. -/
theorem spec_C10_theorem (images : List PyImg) (titles : List String)
    (effs : List ShowEff)
    (h : imshowAllRun images titles Limits.image none none = Except.ok effs) :
    effs.map ShowEff.img = images.map imgAsFloat ∧
    effs.map ShowEff.title
      = (List.range images.length).map (fun i => titles.getD i noTitle) := by
  cases hl : imageLimits images with
  | none =>
    simp only [imshowAllRun, hl] at h
    exact Except.noConfusion h
  | some p =>
    simp only [imshowAllRun, hl, Option.getD_none] at h
    have hlen : (images.map imgAsFloat).length
        ≤ (pyPadTitles titles (images.map imgAsFloat).length).length := by
      rw [padTitles_length]
      exact le_max_right _ _
    injection h with h2
    subst h2
    constructor
    · rw [List.map_map]
      show ((images.map imgAsFloat).zip
          (pyPadTitles titles (images.map imgAsFloat).length)).map Prod.fst
        = images.map imgAsFloat
      exact List.map_fst_zip _ _ hlen
    · rw [List.map_map]
      show ((images.map imgAsFloat).zip
          (pyPadTitles titles (images.map imgAsFloat).length)).map Prod.snd
        = (List.range images.length).map (fun i => titles.getD i noTitle)
      rw [zip_map_snd_take, padTitles_append, padTitles_take, List.length_map]

/-- Witness for claim C10: two images with three titles — both images
are shown, with the first two titles; the third is ignored. -/
theorem spec_C10_witness :
    (([⟨[0], "a", 0, 2⟩, ⟨[2], "b", 0, 2⟩] : List ShowEff).map ShowEff.img
        = [PyImg.fl [0], PyImg.fl [2]].map imgAsFloat) ∧
    (([⟨[0], "a", 0, 2⟩, ⟨[2], "b", 0, 2⟩] : List ShowEff).map ShowEff.title
        = (List.range ([PyImg.fl [0], PyImg.fl [2]].length)).map
            (fun i => ["a", "b", "c"].getD i noTitle)) :=
  spec_C10_theorem [PyImg.fl [0], PyImg.fl [2]] ["a", "b", "c"]
    [⟨[0], "a", 0, 2⟩, ⟨[2], "b", 0, 2⟩] (by rfl)
